import Mathlib

/-!
Verification development for the POS-Backand repository
(Firebase HTTP functions proxying the Fireberry CRM REST API).

The TypeScript sources are shallowly embedded as pure Lean functions:

- the Backend Call Gateway (src/functions/src/services/fireberry/fireberry-service.ts,
  FireberryService.callApi) becomes a total function from the request arguments and the
  outcome of the outbound transport (the axios promise either fulfilling with a 2xx
  response body or rejecting with an error object) to the uniform result envelope;
- the Resource Facades (customer-service.ts, product-service.ts, order-service.ts,
  inventory-service.ts, invoice-service.ts, repair-service.ts) become functions from
  their arguments to the argument triple they pass to callApi;
- the Request Handlers (index.ts) become functions from the parsed request
  (HTTP method, query parameters, JSON body) to an outcome that is either an error
  response or a Facade/Gateway invocation;
- the birthday filter (CustomerService.getUpcomingBirthdays) is embedded over an
  explicit model of the JS Date values it manipulates, assuming the runtime local
  time zone is UTC (the usual serverless deployment default), with the current
  instant passed in explicitly in place of the new Date() call.

JavaScript dynamic values that can occur in payloads are modelled by a small JSON
universe: records are association lists whose values are primitive JSON values or
the undefined marker (payload fields in this code base are primitives; nested
objects are not needed by any claim). JavaScript truthiness is modelled explicitly
because the source branches on it (if (data && ...), if (productData.id), ...).
-/

/-- Primitive JSON value occurring in a payload field. -/
inductive JVal where
  | null
  | jbool (b : Bool)
  | jnum (n : Int)
  | jstr (s : String)
deriving DecidableEq

/-- JavaScript truthiness of a primitive value (NaN is not modelled; numbers are integers). -/
def JVal.truthy : JVal → Bool
  | .null => false
  | .jbool b => b
  | .jnum n => n != 0
  | .jstr s => s != ("")

/-- String interpolation of a primitive value, as in a JS template literal. -/
def JVal.interp : JVal → String
  | .null => ("null")
  | .jbool b => if b then ("true") else ("false")
  | .jnum n => toString n
  | .jstr s => s

/-- A JS object as sent in a request body: an association list from property names to
values, where a value of none models a property that is present but set to undefined. -/
abbrev JRecord : Type := List (String × Option JVal)

/-- A JSON body handed to the Gateway: either a primitive value or a flat object. -/
inductive JBody where
  | prim (v : JVal)
  | obj (fields : JRecord)
deriving DecidableEq

/-- JavaScript truthiness of a body value; objects are always truthy. -/
def JBody.truthy : JBody → Bool
  | .prim v => v.truthy
  | .obj _ => true

/-- Truthiness of a possibly-absent body (undefined is falsy). -/
def jsTruthyOpt (x : Option JBody) : Bool :=
  match x with
  | none => false
  | some b => b.truthy

/-- Truthiness of a possibly-absent property value, as tested by if (obj.field). -/
def jsTruthyField (x : Option JVal) : Bool :=
  match x with
  | none => false
  | some v => v.truthy

/-- Reading obj.field in JS: undefined when the property is missing or set to undefined. -/
def getField (r : JRecord) (k : String) : Option JVal :=
  (List.lookup k r).join

/-- The delete obj.field statement: removes the property entirely. -/
def removeField (r : JRecord) (k : String) : JRecord :=
  r.filter (fun f => f.1 != k)

/-- Object.fromEntries(Object.entries(x).filter(([_, value]) => value !== undefined)),
the undefined-stripping idiom used by the customer, product and order facades. -/
def cleanFields (r : JRecord) : JRecord :=
  r.filter (fun f => f.2 != none)

/-- HTTP methods accepted by the Gateway (type HttpMethod in fireberry-service.ts). -/
inductive HttpMethod where
  | GET | POST | PUT | DELETE | PATCH
deriving DecidableEq

/-- Error envelope payload: interface FireberryResponse error branch. -/
structure FireberryError where
  code : String
  message : String
deriving DecidableEq

/-- Result envelope: interface FireberryResponse of fireberry-service.ts.
A field value of none models an absent JSON key. -/
structure FireberryResponse (T : Type) where
  success : Bool
  data : Option T
  error : Option FireberryError
deriving DecidableEq

/-- The response part of an axios rejection: error.response, when the backend answered
with a non-2xx status. dataMessage models a message carried in the error response body
(error.response.data); callApi never reads it. -/
structure ErrorResponseInfo where
  status : Option Nat
  dataMessage : Option String
deriving DecidableEq

/-- The error value caught by the catch block of callApi. message is none when the
thrown value carries no message property. -/
structure AxiosLikeError where
  response : Option ErrorResponseInfo
  message : Option String
deriving DecidableEq

/-- Outcome of the outbound transport: the awaited axios call either fulfills with the
parsed 2xx response body or rejects (non-2xx status or network failure). -/
inductive TransportOutcome where
  | fulfilled (body : JBody)
  | rejected (err : AxiosLikeError)

/-- Base URL configured in the FireberryService constructor. -/
def baseUrl : String := ("https://api.fireberry.com")

/-- Request configuration assembled by callApi before the axios call: the url join and
the conditional body attachment (config.data is set only when data is truthy and the
method is POST, PUT or PATCH; headers are constant and omitted from the model). -/
structure RequestConfig where
  url : String
  method : HttpMethod
  body : Option JBody
deriving DecidableEq

/-- Lines 36 to 48 of fireberry-service.ts: build the AxiosRequestConfig. -/
def buildRequestConfig (endpoint : String) (method : HttpMethod) (data : Option JBody) :
    RequestConfig :=
  { url := baseUrl ++ ("/") ++ endpoint
    method := method
    body :=
      if jsTruthyOpt data && (method == .POST || method == .PUT || method == .PATCH) then
        data
      else
        none }

/-- The expression error.response?.status?.toString() || (unknown) from line 62:
the stringified status when one is available, the literal unknown otherwise
(a status renders as a nonempty decimal string, so the or-fallback fires exactly
when the optional chain yields undefined). -/
def errorCodeOf (err : AxiosLikeError) : String :=
  match err.response with
  | some r =>
    match r.status with
    | some s => toString s
    | none => ("unknown")
  | none => ("unknown")

/-- The expression error.message || (Unknown error occurred) from line 63:
the error message when present and nonempty, the fallback literal otherwise. -/
def errorMessageOf (err : AxiosLikeError) : String :=
  match err.message with
  | some m => if m = ("") then ("Unknown error occurred") else m
  | none => ("Unknown error occurred")

/-- FireberryService.callApi, lines 30 to 67 of fireberry-service.ts.
The function is total: every combination of arguments and transport outcome maps to
a request configuration plus a normal envelope value, which is how the try/catch
(never letting a rejection escape) is reflected in the embedding. The first
component is the request configuration handed to axios; the second is the returned
envelope. -/
def callApi (endpoint : String) (method : HttpMethod) (data : Option JBody)
    (outcome : TransportOutcome) : RequestConfig × FireberryResponse JBody :=
  (buildRequestConfig endpoint method data,
    match outcome with
    | .fulfilled body =>
        { success := true, data := some body, error := none }
    | .rejected err =>
        { success := false, data := none
          error := some { code := errorCodeOf err, message := errorMessageOf err } })

/-- Invocation of the Gateway by a Facade: the argument triple handed to
fireberryService.callApi. -/
structure GatewayCall where
  endpoint : String
  method : HttpMethod
  data : Option JBody
deriving DecidableEq

/-- CustomerService.createCustomer: POST of the cleaned record to the account path. -/
def CustomerService.createCustomer (customer : JRecord) : GatewayCall :=
  { endpoint := ("api/record/account"), method := .POST
    data := some (.obj (cleanFields customer)) }

/-- CustomerService.updateCustomer: PUT of the cleaned record to the account path plus id. -/
def CustomerService.updateCustomer (id : String) (customer : JRecord) : GatewayCall :=
  { endpoint := ("api/record/account/") ++ id, method := .PUT
    data := some (.obj (cleanFields customer)) }

/-- ProductService.createProduct: POST of the cleaned record to the product path. -/
def ProductService.createProduct (product : JRecord) : GatewayCall :=
  { endpoint := ("api/record/product"), method := .POST
    data := some (.obj (cleanFields product)) }

/-- ProductService.updateProduct: PUT of the cleaned record to the product path plus id. -/
def ProductService.updateProduct (id : String) (product : JRecord) : GatewayCall :=
  { endpoint := ("api/record/product/") ++ id, method := .PUT
    data := some (.obj (cleanFields product)) }

/-- OrderService.updateOrder: PUT of the cleaned record to the crmorder path plus id. -/
def OrderService.updateOrder (id : String) (order : JRecord) : GatewayCall :=
  { endpoint := ("api/record/crmorder/") ++ id, method := .PUT
    data := some (.obj (cleanFields order)) }

/-- OrderService.addOrderItem: POST of the cleaned item to the order items path. -/
def OrderService.addOrderItem (orderId : String) (item : JRecord) : GatewayCall :=
  { endpoint := ("api/record/crmorder/") ++ orderId ++ ("/items"), method := .POST
    data := some (.obj (cleanFields item)) }

/-- InventoryService.createInventory: POST of the record, passed through unchanged. -/
def InventoryService.createInventory (item : JRecord) : GatewayCall :=
  { endpoint := ("api/record/inventory"), method := .POST, data := some (.obj item) }

/-- InventoryService.updateInventory: PUT of the record, passed through unchanged. -/
def InventoryService.updateInventory (id : String) (item : JRecord) : GatewayCall :=
  { endpoint := ("api/record/inventory/") ++ id, method := .PUT, data := some (.obj item) }

/-- InvoiceService.createInvoice: POST of the record, passed through unchanged. -/
def InvoiceService.createInvoice (invoice : JRecord) : GatewayCall :=
  { endpoint := ("invoices"), method := .POST, data := some (.obj invoice) }

/-- InvoiceService.updateInvoice: PUT of the record, passed through unchanged. -/
def InvoiceService.updateInvoice (id : String) (invoice : JRecord) : GatewayCall :=
  { endpoint := ("invoices/") ++ id, method := .PUT, data := some (.obj invoice) }

/-- RepairService.createRepair: POST of the record, passed through unchanged. -/
def RepairService.createRepair (repair : JRecord) : GatewayCall :=
  { endpoint := ("api/record/cases"), method := .POST, data := some (.obj repair) }

/-- RepairService.updateRepair: PUT of the record, passed through unchanged. -/
def RepairService.updateRepair (id : String) (repair : JRecord) : GatewayCall :=
  { endpoint := ("api/record/cases/") ++ id, method := .PUT, data := some (.obj repair) }

/-- Result of a Facade create method that validates before calling the Gateway:
either a locally manufactured error envelope (no Gateway call happens) or a call. -/
inductive FacadeCreateResult where
  | localError (code : String) (message : String)
  | call (g : GatewayCall)
deriving DecidableEq

/-- OrderService.createOrder, lines 72 to 90 of order-service.ts: required-field check
on accountid and companyname (JS truthiness), then POST of the cleaned record. -/
def OrderService.createOrder (order : JRecord) : FacadeCreateResult :=
  if jsTruthyField (getField order ("accountid")) = false
      ∨ jsTruthyField (getField order ("companyname")) = false then
    .localError ("MISSING_REQUIRED_FIELDS")
      ("Missing required fields: accountid and companyname are required")
  else
    .call { endpoint := ("api/record/crmorder"), method := .POST
            data := some (.obj (cleanFields order)) }

/-- Single-quote character, written by code point to keep the filter strings readable
as data. -/
def quoteMark : String := String.singleton (Char.ofNat 39)

/-- The fields list sent by queryCustomers (line 130 of customer-service.ts). -/
def queryFieldsList : String :=
  ("accountid,accountname,firstname,lastname,emailaddress1,telephone1,idnumber,statuscode,statecode,websiteurl,createdon,birthdaydate,revenue")

/-- The template literal of line 141 of customer-service.ts, chunked as it reads:
a start-with pattern over five fields joined with OR inside outer parentheses. -/
def customerQueryFilter (q : String) : String :=
  ("((accountname start-with ") ++ quoteMark ++ ("%") ++ q ++ quoteMark
    ++ (") OR (firstname start-with ") ++ quoteMark ++ ("%") ++ q ++ quoteMark
    ++ (") OR (lastname start-with ") ++ quoteMark ++ ("%") ++ q ++ quoteMark
    ++ (") OR (emailaddress1 start-with ") ++ quoteMark ++ ("%") ++ q ++ quoteMark
    ++ (") OR (telephone1 start-with ") ++ quoteMark ++ ("%") ++ q ++ quoteMark ++ ("))")

/-- Whitespace test for the JS String.prototype.trim model (space and the ASCII
control whitespace characters; the further Unicode space characters JS also trims
do not occur in any claim). -/
def isJsWhitespace (c : Char) : Bool :=
  c.toNat = 32 || c.toNat = 9 || c.toNat = 10 || c.toNat = 13 || c.toNat = 11 || c.toNat = 12

/-- Model of query.trim(): drop leading and trailing whitespace characters. -/
def jsTrim (s : String) : String :=
  String.mk (((s.data.dropWhile isJsWhitespace).reverse.dropWhile isJsWhitespace).reverse)

/-- Parameters of CustomerService.queryCustomers (interface QueryCustomersParams);
none models an omitted (undefined) option, on which the destructuring defaults fire. -/
structure QueryCustomersParams where
  query : Option String
  pageSize : Option Int
  pageNumber : Option Int
  sortBy : Option String
  sortDirection : Option String

/-- CustomerService.queryCustomers, lines 116 to 148 of customer-service.ts: builds the
structured query payload (page_size clamped with Math.min to 50, the optional
start-with filter added only when the query is truthy and nonblank after trim) and
POSTs it to the api/query endpoint. The response post-processing of lines 151 to 162
returns the envelope unchanged in the typed model and is omitted. -/
def CustomerService.queryCustomers (params : QueryCustomersParams) : GatewayCall :=
  let pageSize := params.pageSize.getD 50
  let pageNumber := params.pageNumber.getD 1
  let sortBy := params.sortBy.getD ("accountname")
  let sortDirection := params.sortDirection.getD ("asc")
  let base : JRecord :=
    [(("objecttype"), some (.jnum 1)),
     (("fields"), some (.jstr queryFieldsList)),
     (("page_size"), some (.jnum (min pageSize 50))),
     (("page_number"), some (.jnum pageNumber)),
     (("sort_by"), some (.jstr sortBy)),
     (("sort_type"), some (.jstr sortDirection))]
  let payload : JRecord :=
    match params.query with
    | some q =>
      if q != ("") && jsTrim q != ("") then
        base ++ ([(("query"), some (JVal.jstr (customerQueryFilter q)))] : JRecord)
      else
        base
    | none => base
  { endpoint := ("api/query"), method := .POST, data := some (.obj payload) }

/-- Field of the object body of a Gateway call, read as JS would read it; none when
the call has no object body or the property is missing or undefined. -/
def callBodyField (g : GatewayCall) (k : String) : Option JVal :=
  match g.data with
  | some (.obj r) => getField r k
  | _ => none

/-- Outcome of a create handler in index.ts, cut at the Facade boundary: either an
early error response (405 or 400, produced before any Facade or Gateway activity)
or the Facade invocation it proceeds to. The constructors carrying no GatewayCall
perform no outbound backend call by construction. -/
inductive CreateOutcome where
  | methodNotAllowed
  | clientError (status : Nat) (message : String)
  | facadeCall (g : GatewayCall)
deriving DecidableEq

/-- Handler createProduct, lines 106 to 128 of index.ts: POST only, then the check
if (!productData || !productData.name) answers 400, then productService.createProduct. -/
def createProductHandler (httpMethod : String) (body : Option JRecord) : CreateOutcome :=
  if httpMethod != ("POST") then .methodNotAllowed
  else
    match body with
    | none => .clientError 400 ("Product data is required with at least a name")
    | some r =>
      if jsTruthyField (getField r ("name")) = false then
        .clientError 400 ("Product data is required with at least a name")
      else
        .facadeCall (ProductService.createProduct r)

/-- Handler createOrder, lines 773 to 795 of index.ts: POST only, then the check
if (!orderData || !orderData.accountid || !orderData.companyname), then the
OrderService.createOrder facade (which re-checks and may return a local envelope). -/
inductive CreateOrderOutcome where
  | methodNotAllowed
  | clientError (status : Nat) (message : String)
  | facadeResult (r : FacadeCreateResult)
deriving DecidableEq

/-- Handler createOrder of index.ts, cut at the Facade boundary. -/
def createOrderHandler (httpMethod : String) (body : Option JRecord) : CreateOrderOutcome :=
  if httpMethod != ("POST") then .methodNotAllowed
  else
    match body with
    | none =>
        .clientError 400 ("Order data is required with at least accountid and companyname")
    | some r =>
      if jsTruthyField (getField r ("accountid")) = false
          ∨ jsTruthyField (getField r ("companyname")) = false then
        .clientError 400 ("Order data is required with at least accountid and companyname")
      else
        .facadeResult (OrderService.createOrder r)

/-- Outcome of an update handler in index.ts, cut at the Facade boundary.
thrown models the TypeError raised when the id fallback reads request.body.id on an
absent body; it is caught by the shared handleError catch-all and mapped to a 500. -/
inductive UpdateOutcome where
  | methodNotAllowed
  | clientError (status : Nat) (message : String)
  | thrown
  | facadeCall (g : GatewayCall)
deriving DecidableEq

/-- Shared shape of the update handlers updateProduct (lines 150 to 188), updateRepair,
updateOrder and updateCustomer (lines 1047 to 1084) of index.ts, which are verbatim
copies up to resource names: accept PUT or POST; resolve the id as
request.query.id || request.body.id (JS or, so the query id wins exactly when truthy);
400 when the resolved id or the body is falsy; delete body.id when that property is
truthy; then hand the id (string-interpolated into the path by the facade) and the
remaining body to the given facade method. -/
def updateHandlerShape (idRequiredMsg dataRequiredMsg : String)
    (facade : String → JRecord → GatewayCall)
    (httpMethod : String) (queryId : Option String) (body : Option JRecord) :
    UpdateOutcome :=
  if httpMethod != ("PUT") && httpMethod != ("POST") then .methodNotAllowed
  else
    match queryId with
    | some qs =>
      if qs != ("") then
        -- query id truthy: the JS or short-circuits, request.body.id is not read here
        match body with
        | none => .clientError 400 dataRequiredMsg
        | some r =>
          let r2 := if jsTruthyField (getField r ("id")) then removeField r ("id") else r
          .facadeCall (facade qs r2)
      else
        -- query id supplied but falsy: fall through to the body id
        match body with
        | none => .thrown
        | some r =>
          match getField r ("id") with
          | some v =>
            if v.truthy then
              .facadeCall (facade v.interp (removeField r ("id")))
            else
              .clientError 400 idRequiredMsg
          | none => .clientError 400 idRequiredMsg
    | none =>
      match body with
      | none => .thrown
      | some r =>
        match getField r ("id") with
        | some v =>
          if v.truthy then
            .facadeCall (facade v.interp (removeField r ("id")))
          else
            .clientError 400 idRequiredMsg
        | none => .clientError 400 idRequiredMsg

/-- Handler updateProduct of index.ts. -/
def updateProductHandler (httpMethod : String) (queryId : Option String)
    (body : Option JRecord) : UpdateOutcome :=
  updateHandlerShape ("Product ID is required") ("Product data is required")
    ProductService.updateProduct httpMethod queryId body

/-- Handler updateCustomer of index.ts. -/
def updateCustomerHandler (httpMethod : String) (queryId : Option String)
    (body : Option JRecord) : UpdateOutcome :=
  updateHandlerShape ("Customer ID is required") ("Customer data is required")
    CustomerService.updateCustomer httpMethod queryId body

/-- Milliseconds per day, the constant 1000 * 60 * 60 * 24 of line 221. -/
def msPerDay : Int := 86400000

/-- Gregorian leap-year test, as implemented by the JS Date object. -/
def isLeapYear (y : Nat) : Bool :=
  (y % 4 == 0 && y % 100 != 0) || y % 400 == 0

/-- Length of a month (1 to 12) in days. -/
def monthLength (leap : Bool) (m : Nat) : Nat :=
  match m with
  | 1 => 31
  | 2 => if leap then 29 else 28
  | 3 => 31
  | 4 => 30
  | 5 => 31
  | 6 => 30
  | 7 => 31
  | 8 => 31
  | 9 => 30
  | 10 => 31
  | 11 => 30
  | 12 => 31
  | _ => 0

/-- Days elapsed before month m (1 to 12) within a year. -/
def cumDaysBeforeMonth (leap : Bool) (m : Nat) : Nat :=
  ((List.range (m - 1)).map (fun i => monthLength leap (i + 1))).sum

/-- Day number of the civil date y-m-d in the proleptic Gregorian calendar, counted
from an arbitrary fixed epoch (absolute offsets cancel: the embedding only compares
and subtracts these values, exactly like Date.getTime comparisons). The function is
linear in d, which reproduces the JS Date rollover for out-of-range day components
(new Date(y, 1, 29) in a non-leap year is March 1). -/
def rataDie (y m d : Nat) : Int :=
  365 * ((y : Int) - 1) + ((y - 1) / 4 : Nat) - ((y - 1) / 100 : Nat)
    + ((y - 1) / 400 : Nat) + cumDaysBeforeMonth (isLeapYear y) m + ((d : Int) - 1)

/-- Ceiling of the exact division a / b for positive b, the value Math.ceil returns on
these operands (the float quotient of millisecond counts in range never rounds across
an integer boundary, so the float ceiling equals the exact rational ceiling). -/
def ceilDivInt (a b : Int) : Int := -(Int.fdiv (-a) b)

/-- The JS Date captured by new Date() at the moment the filter runs, decomposed into
its civil date and the milliseconds elapsed within that day, with the runtime time
zone taken to be UTC. getFullYear reads the year field; getTime is toMs. -/
structure Instant where
  year : Nat
  month : Nat
  day : Nat
  msOfDay : Nat
deriving DecidableEq

/-- Epoch milliseconds of an instant (up to the fixed epoch offset, which cancels in
every comparison and difference the code performs). -/
def Instant.toMs (t : Instant) : Int :=
  rataDie t.year t.month t.day * msPerDay + t.msOfDay

/-- Splitting of a character list at dash characters (code point 45). -/
def splitDash (cs : List Char) (acc : List Char) : List (List Char) :=
  match cs with
  | [] => [acc.reverse]
  | c :: rest =>
    if c = Char.ofNat 45 then acc.reverse :: splitDash rest []
    else splitDash rest (c :: acc)

/-- Decimal reading of a character list; none as soon as a non-digit appears. -/
def parseDigitsAux (cs : List Char) (n : Nat) : Option Nat :=
  match cs with
  | [] => some n
  | c :: rest =>
    if 48 ≤ c.toNat ∧ c.toNat ≤ 57 then parseDigitsAux rest (10 * n + (c.toNat - 48))
    else none

/-- Decimal reading of a character list starting from zero. -/
def parseDigits (cs : List Char) : Option Nat := parseDigitsAux cs 0

/-- Parsing of a birth-date string by new Date(s), modelled for the date-only ISO form
YYYY-MM-DD (the format of every birthdaydate in the spec; the JS parser reads it as
UTC midnight): split at dashes, read the three decimal components, check their widths
and calendar validity. Any other string is treated as unparseable, yielding an
Invalid Date whose NaN arithmetic makes the filter drop the customer. -/
def parseIsoDate (s : String) : Option (Nat × Nat × Nat) :=
  match splitDash s.data [] with
  | [ys, ms, ds] =>
    match parseDigits ys, parseDigits ms, parseDigits ds with
    | some y, some m, some d =>
      if ys.length = 4 ∧ ms.length = 2 ∧ ds.length = 2 ∧ 1 ≤ m ∧ m ≤ 12
          ∧ 1 ≤ d ∧ d ≤ monthLength (isLeapYear y) m then
        some (y, m, d)
      else
        none
    | _, _, _ => none
  | _ => none

/-- Normalized civil date held by the JS Date built as new Date(y, m - 1, d): when the
day component exceeds the month length it carries into the following month. A single
carry step is exact for every (m, d) parseIsoDate can produce, because the parser
bounds d by the month length in the birth year, which exceeds the month length in y
by at most one day (February 29 of a leap birth year against a non-leap y), so the
overflow is at most one day into the next month. -/
def normalizeCivil (y m d : Nat) : Nat × Nat × Nat :=
  if d ≤ monthLength (isLeapYear y) m then (y, m, d)
  else if m < 12 then (y, m + 1, d - monthLength (isLeapYear y) m)
  else (y + 1, 1, d - monthLength (isLeapYear y) m)

/-- The filter predicate of CustomerService.getUpcomingBirthdays, lines 201 to 225 of
customer-service.ts, for one customer record reduced to its birthdaydate field:
reject a falsy birthdaydate; parse it (getMonth and getDate of the parsed UTC date
give m - 1 and d); build this year via new Date(today.getFullYear(), month, date);
roll one year forward when that date is strictly before the current instant; then
keep the customer when the rounded-up day difference lies in [0, days]. The roll,
setFullYear(today.getFullYear() + 1), replaces the year of the NORMALIZED date the
Date object actually holds, so a February 29 birthday that normalized to March 1
rolls to March 1 of the next year; the month/day pair it keeps is
normalizeCivil today.year m d, and any residual overflow of that pair in the next
year (February 29 into a non-leap year) is absorbed by the linearity of rataDie,
exactly as the Date object renormalizes. An unparseable date yields NaN comparisons
that are all false, hence rejection. -/
def birthdayKeeps (today : Instant) (days : Int) (birthdaydate : Option String) : Bool :=
  match birthdaydate with
  | none => false
  | some s =>
    if s = ("") then false
    else
      match parseIsoDate s with
      | none => false
      | some (_, m, d) =>
        let thisYearBirthday : Int := rataDie today.year m d * msPerDay
        let target : Int :=
          if thisYearBirthday < today.toMs then
            rataDie (today.year + 1) (normalizeCivil today.year m d).2.1
              (normalizeCivil today.year m d).2.2 * msPerDay
          else
            thisYearBirthday
        let diffTime : Int := target - today.toMs
        let diffDays : Int := ceilDivInt diffTime msPerDay
        decide (0 ≤ diffDays ∧ diffDays ≤ days)

/-- Modelled from the spec: the this-year occurrence of a birthday month/day, in epoch
milliseconds (midnight of that date in the year of today). -/
def thisYearOccurrenceMs (today : Instant) (m d : Nat) : Int :=
  rataDie today.year m d * msPerDay

/-- Modelled from the spec: the occurrence rolled forward one year when it already fell
before today (handling the December to January wraparound). Rolling a calendar
occurrence forward one year keeps the normalized month/day the occurrence actually
fell on (the setFullYear semantics): February 29 normalized to March 1 rolls to
March 1 of the next year. -/
def rolledOccurrenceMs (today : Instant) (m d : Nat) : Int :=
  if thisYearOccurrenceMs today m d < today.toMs then
    rataDie (today.year + 1) (normalizeCivil today.year m d).2.1
      (normalizeCivil today.year m d).2.2 * msPerDay
  else
    thisYearOccurrenceMs today m d

/-- Modelled from the spec: the integer number of days between today and the rolled
occurrence, difference rounded up. -/
def daysUntilOccurrence (today : Instant) (m d : Nat) : Int :=
  ceilDivInt (rolledOccurrenceMs today m d - today.toMs) msPerDay

/-- Modelled from the spec (section 4.3): keep exactly the customers with a parseable
birth date whose rolled this-year occurrence lies, in rounded-up days, within the
inclusive window [0, windowDays] from today. -/
def specUpcomingBirthday (today : Instant) (windowDays : Int)
    (birthdaydate : Option String) : Prop :=
  ∃ s y m d, birthdaydate = some s ∧ parseIsoDate s = some (y, m, d)
    ∧ 0 ≤ daysUntilOccurrence today m d ∧ daysUntilOccurrence today m d ≤ windowDays

/-- Customer record as seen by the birthday filter: the birthdaydate field, which the
filter inspects, plus the remaining fields, which pass through opaquely. -/
structure Customer where
  birthdaydate : Option String
  otherFields : JRecord
deriving DecidableEq

/-- CustomerService.getUpcomingBirthdays, lines 177 to 241 of customer-service.ts,
from the point where the page of customers has been fetched: a failed or data-less
fetch is mapped to a failure envelope reusing the fetch error when present (the
FETCH_ERROR literal otherwise); a successful fetch is filtered in place with the
birthday predicate. The untyped Records-unwrapping alternative of line 195 does not
arise in the typed model, and the surrounding try/catch is reflected by totality. -/
def getUpcomingBirthdays (today : Instant) (days : Int)
    (fetched : FireberryResponse (List Customer)) : FireberryResponse (List Customer) :=
  match fetched.success, fetched.data with
  | true, some customers =>
      { success := true
        data := some (customers.filter (fun c => birthdayKeeps today days c.birthdaydate))
        error := none }
  | _, _ =>
      { success := false, data := none
        error := some (fetched.error.getD
          { code := ("FETCH_ERROR")
            message := ("Failed to fetch customers for birthday filtering") }) }

/-- Midnight at the start of 2024-06-01 (UTC), the first example instant of the spec. -/
def juneFirst : Instant := { year := 2024, month := 6, day := 1, msOfDay := 0 }

/-- Midnight at the start of 2024-12-20 (UTC), the wraparound example instant. -/
def decTwentieth : Instant := { year := 2024, month := 12, day := 20, msOfDay := 0 }

/-- Midnight at the start of 2027-12-01 (UTC), the instant exercising the leap-day
normalization of the roll: 2027 is not a leap year, 2028 is. -/
def decFirst : Instant := { year := 2027, month := 12, day := 1, msOfDay := 0 }

/-- Modelled from the spec: a starts-with predicate on one field, the percent-prefixed
pattern wrapped in single quotes. -/
def startWithPredicate (q field : String) : String :=
  ("(") ++ field ++ (" start-with ") ++ quoteMark ++ ("%") ++ q ++ quoteMark ++ (")")

/-- Modelled from the spec (section 8): the OR of the starts-with predicate over
exactly the five designated text fields, wrapped in outer parentheses. -/
def fiveFieldOrFilter (q : String) : String :=
  ("(") ++ String.intercalate (" OR ")
    ([("accountname"), ("firstname"), ("lastname"), ("emailaddress1"),
      ("telephone1")].map (fun f => startWithPredicate q f)) ++ (")")

/-!
Theorems. Each claim of the specification is settled below; helper lemmas carry no
claim name and are shared freely.
-/

/-- C1: for every endpoint, method and optional body, and every rejected transport
outcome (non-2xx response or network failure), callApi returns a normal failure
envelope: success is false, an error branch is present, its code is the stringified
HTTP status when one is available and the literal unknown otherwise, and its message
is nonempty. Totality of callApi over all outcomes is the never-raises part of the
claim: every outcome, the fulfilled one included, maps to an envelope value. -/
theorem C1_gateway_failure_envelope :
    ∀ (endpoint : String) (method : HttpMethod) (data : Option JBody)
      (err : AxiosLikeError),
      ((callApi endpoint method data (.rejected err)).2.success = false)
      ∧ ∃ fe, (callApi endpoint method data (.rejected err)).2.error = some fe
          ∧ (∀ s, err.response.bind ErrorResponseInfo.status = some s
              → fe.code = toString s)
          ∧ (err.response.bind ErrorResponseInfo.status = none → fe.code = ("unknown"))
          ∧ fe.message ≠ ("") := by
  intro e m d err
  refine ⟨rfl, ⟨errorCodeOf err, errorMessageOf err⟩, rfl, ?_, ?_, ?_⟩
  · intro s hs
    cases hr : err.response with
    | none => simp [hr] at hs
    | some r =>
      rw [hr] at hs
      simp only [Option.some_bind] at hs
      simp [errorCodeOf, hr, hs]
  · intro hnone
    cases hr : err.response with
    | none => simp [errorCodeOf, hr]
    | some r =>
      cases hst : r.status with
      | none => simp [errorCodeOf, hr, hst]
      | some s2 => simp [hr, hst] at hnone
  · cases hm : err.message with
    | none => simp [errorMessageOf, hm]
    | some msg =>
      by_cases hempty : msg = ("")
      · simp [errorMessageOf, hm, hempty]
      · simp [errorMessageOf, hm, hempty]

/-- Witness for C1 at a concrete rejected outcome carrying HTTP status 404. -/
theorem C1_gateway_failure_envelope_witness :
    ((callApi ("api/record/account/42") .GET none
        (.rejected { response := some { status := some 404, dataMessage := none }
                     message := some ("Request failed with status code 404") })).2.success
      = false)
    ∧ ∃ fe,
        (callApi ("api/record/account/42") .GET none
          (.rejected { response := some { status := some 404, dataMessage := none }
                       message := some ("Request failed with status code 404") })).2.error
          = some fe
        ∧ fe.code = toString 404 ∧ fe.message ≠ ("") := by
  obtain ⟨h1, fe, h2, h3, _, h5⟩ :=
    C1_gateway_failure_envelope ("api/record/account/42") .GET none
      { response := some { status := some 404, dataMessage := none }
        message := some ("Request failed with status code 404") }
  exact ⟨h1, fe, h2, h3 404 rfl, h5⟩

/-- C2: every envelope callApi produces satisfies the discriminant invariant: the
fulfilled outcome yields success true with the parsed body under data and no error
branch, and the rejected outcome yields success false with an error branch and no
data; no envelope carries both branches or neither. -/
theorem C2_envelope_discriminant :
    ∀ (endpoint : String) (method : HttpMethod) (data : Option JBody)
      (outcome : TransportOutcome),
      (∃ b, outcome = .fulfilled b
        ∧ (callApi endpoint method data outcome).2
            = { success := true, data := some b, error := none })
      ∨ (∃ err, outcome = .rejected err
        ∧ (callApi endpoint method data outcome).2.success = false
        ∧ (callApi endpoint method data outcome).2.data = none
        ∧ ∃ fe, (callApi endpoint method data outcome).2.error = some fe) := by
  intro e m d o
  cases o with
  | fulfilled b => exact Or.inl ⟨b, rfl, rfl⟩
  | rejected err => exact Or.inr ⟨err, rfl, rfl, rfl, _, rfl⟩

/-- C3 counterexample: a supplied but falsy payload (here the JSON value false) is not
attached to a POST request, refuting the claim that POST always transmits exactly the
supplied payload. -/
theorem C3_counterexample_falsy_payload_dropped :
    ((callApi ("api/record/product") .POST (some (.prim (.jbool false)))
        (.fulfilled (.prim .null))).1.body = none)
    ∧ (none : Option JBody) ≠ some (.prim (.jbool false)) := by
  exact ⟨rfl, by decide⟩

/-- C3 amended: GET and DELETE requests never carry a body regardless of the supplied
payload; POST, PUT and PATCH requests carry exactly the supplied payload when it is
truthy (every object payload is), and no body at all when the payload is absent or a
falsy primitive. -/
theorem C3_method_body_attachment :
    ∀ (endpoint : String) (data : Option JBody) (outcome : TransportOutcome),
      ((callApi endpoint .GET data outcome).1.body = none)
      ∧ ((callApi endpoint .DELETE data outcome).1.body = none)
      ∧ (∀ b, data = some b → b.truthy = true →
          ((callApi endpoint .POST data outcome).1.body = data
            ∧ (callApi endpoint .PUT data outcome).1.body = data
            ∧ (callApi endpoint .PATCH data outcome).1.body = data))
      ∧ (jsTruthyOpt data = false →
          ∀ (method : HttpMethod), (callApi endpoint method data outcome).1.body = none) := by
  intro e d o
  refine ⟨?_, ?_, ?_, ?_⟩
  · cases d with
    | none => rfl
    | some b => simp [callApi, buildRequestConfig]
  · cases d with
    | none => rfl
    | some b => simp [callApi, buildRequestConfig]
  · intro b hb ht
    subst hb
    refine ⟨?_, ?_, ?_⟩ <;> simp [callApi, buildRequestConfig, jsTruthyOpt, ht]
  · intro hf method
    simp [callApi, buildRequestConfig, hf]

/-- Witness for C3 amended: an object payload rides a POST unchanged, and an absent
payload yields no body on every method. -/
theorem C3_method_body_attachment_witness :
    ((callApi ("api/record/product") .POST
        (some (.obj [(("name"), some (.jstr ("A")))])) (.fulfilled (.prim .null))).1.body
      = some (.obj [(("name"), some (.jstr ("A")))]))
    ∧ ((callApi ("api/record/product") .GET none (.fulfilled (.prim .null))).1.body
      = none) := by
  refine ⟨?_, ?_⟩
  · exact ((C3_method_body_attachment ("api/record/product")
      (some (.obj [(("name"), some (.jstr ("A")))])) (.fulfilled (.prim .null))).2.2.1
        (.obj [(("name"), some (.jstr ("A")))]) rfl (by decide)).1
  · exact (C3_method_body_attachment ("api/record/product") none
      (.fulfilled (.prim .null))).1

/-- C4 counterexample: a rejected call whose error response body carries a
backend-provided message still reports the generic transport description, because
line 63 of fireberry-service.ts reads only error.message and never
error.response.data; this refutes the claimed three-step fallback chain. -/
theorem C4_counterexample_backend_message_ignored :
    ((callApi ("api/record/product") .POST none
        (.rejected
          { response := some { status := some 400
                               dataMessage := some ("Backend rejected the record") }
            message := some ("Request failed with status code 400") })).2.error
      = some { code := ("400"), message := ("Request failed with status code 400") })
    ∧ ("Request failed with status code 400") ≠ ("Backend rejected the record") := by
  exact ⟨by decide, by decide⟩

/-- C4 amended: on every failed Gateway call the envelope message is the error value
own message when that message is present and nonempty, and the literal fallback
Unknown error occurred otherwise; the backend-provided response-body message is never
consulted. -/
theorem C4_error_message_fallback :
    ∀ (endpoint : String) (method : HttpMethod) (data : Option JBody)
      (err : AxiosLikeError),
      ∃ fe, (callApi endpoint method data (.rejected err)).2.error = some fe
        ∧ (∀ m2, err.message = some m2 → m2 ≠ ("") → fe.message = m2)
        ∧ (err.message = none → fe.message = ("Unknown error occurred"))
        ∧ (err.message = some ("") → fe.message = ("Unknown error occurred")) := by
  intro e m d err
  refine ⟨⟨errorCodeOf err, errorMessageOf err⟩, rfl, ?_, ?_, ?_⟩
  · intro m2 hm hne
    simp [errorMessageOf, hm, hne]
  · intro hm
    simp [errorMessageOf, hm]
  · intro hm
    simp [errorMessageOf, hm]

/-- Witness for C4 amended at a concrete rejected outcome with a nonempty message. -/
theorem C4_error_message_fallback_witness :
    ∃ fe, (callApi ("x") .GET none
        (.rejected { response := none, message := some ("socket hang up") })).2.error
          = some fe
      ∧ fe.message = ("socket hang up") := by
  obtain ⟨fe, h1, h2, _, _⟩ :=
    C4_error_message_fallback ("x") .GET none
      { response := none, message := some ("socket hang up") }
  exact ⟨fe, h1, h2 ("socket hang up") rfl (by decide)⟩

/-- C5 counterexample: the inventory facade sends the update payload to the Gateway
unchanged, so the record with an undefined price field reaches the Gateway still
carrying that field, refuting the claim that every Facade method that sends a body
strips undefined-valued fields before the Gateway is called. -/
theorem C5_counterexample_inventory_not_stripped :
    ((InventoryService.updateInventory ("inv1")
        [(("name"), some (.jstr ("A"))), (("price"), none)]).data
      = some (.obj [(("name"), some (.jstr ("A"))), (("price"), none)]))
    ∧ ([(("name"), some (JVal.jstr ("A"))), (("price"), none)] : JRecord)
        ≠ [(("name"), some (JVal.jstr ("A")))]
    ∧ cleanFields [(("name"), some (JVal.jstr ("A"))), (("price"), none)]
        = [(("name"), some (JVal.jstr ("A")))] := by
  exact ⟨rfl, by decide, by decide⟩

/-- C5 amended: the customer, product and order facade methods that send a body strip
every undefined-valued field before calling the Gateway (the outgoing object is
exactly the defined fields), while the inventory, invoice and repair facades pass
the record to the Gateway unchanged, undefined fields included (those disappear only
later, at JSON serialization in the transport). -/
theorem C5_undefined_field_stripping :
    ∀ (id : String) (r : JRecord),
      ((CustomerService.createCustomer r).data = some (.obj (cleanFields r)))
      ∧ ((CustomerService.updateCustomer id r).data = some (.obj (cleanFields r)))
      ∧ ((ProductService.createProduct r).data = some (.obj (cleanFields r)))
      ∧ ((ProductService.updateProduct id r).data = some (.obj (cleanFields r)))
      ∧ ((OrderService.updateOrder id r).data = some (.obj (cleanFields r)))
      ∧ ((OrderService.addOrderItem id r).data = some (.obj (cleanFields r)))
      ∧ ((InventoryService.createInventory r).data = some (.obj r))
      ∧ ((InventoryService.updateInventory id r).data = some (.obj r))
      ∧ ((InvoiceService.createInvoice r).data = some (.obj r))
      ∧ ((InvoiceService.updateInvoice id r).data = some (.obj r))
      ∧ ((RepairService.createRepair r).data = some (.obj r))
      ∧ ((RepairService.updateRepair id r).data = some (.obj r))
      ∧ (∀ f, f ∈ cleanFields r → f.2 ≠ none) := by
  intro id r
  refine ⟨rfl, rfl, rfl, rfl, rfl, rfl, rfl, rfl, rfl, rfl, rfl, rfl, ?_⟩
  intro f hf
  have := List.of_mem_filter hf
  simpa using this

/-- Looking up a key in a record from which that key was deleted yields nothing. -/
theorem lookup_removeField (k : String) (r : JRecord) :
    List.lookup k (removeField r k) = none := by
  induction r with
  | nil => rfl
  | cons f rest ih =>
    obtain ⟨fk, fv⟩ := f
    by_cases h : fk = k
    · have hcond : ((fk, fv).1 != k) = false := by simp [h]
      rw [removeField, List.filter_cons, hcond, if_neg Bool.false_ne_true]
      exact ih
    · have hcond : ((fk, fv).1 != k) = true := by simp [h]
      rw [removeField, List.filter_cons, hcond, if_pos rfl, List.lookup_cons,
        beq_false_of_ne (Ne.symm h)]
      exact ih

/-- Filtering a record cannot make an absent key appear. -/
theorem lookup_filter_none (p : String × Option JVal → Bool) (k : String) (r : JRecord)
    (h : List.lookup k r = none) : List.lookup k (r.filter p) = none := by
  induction r with
  | nil => rfl
  | cons f rest ih =>
    obtain ⟨fk, fv⟩ := f
    by_cases hk : fk = k
    · rw [List.lookup_cons, hk, beq_self_eq_true] at h
      exact absurd h (by simp)
    · rw [List.lookup_cons, beq_false_of_ne (Ne.symm hk)] at h
      by_cases hp : p (fk, fv)
      · rw [List.filter_cons, if_pos hp, List.lookup_cons, beq_false_of_ne (Ne.symm hk)]
        exact ih h
      · rw [List.filter_cons, if_neg hp]
        exact ih h

/-- Cleaning the undefined fields of a record from which the id key was deleted
leaves the id key absent. -/
theorem lookup_cleanFields_removeField (k : String) (r : JRecord) :
    List.lookup k (cleanFields (removeField r k)) = none :=
  lookup_filter_none _ k _ (lookup_removeField k r)

/-- C6: whenever an update request reaches the update handler with a truthy query-side
identifier and a truthy id field inside the body payload, the outgoing backend call
targets the path built from the query-supplied identifier and its body contains no id
field at all; shown for the cited updateCustomer and updateProduct handlers. -/
theorem C6_update_body_id_stripped :
    ∀ (qid : String) (r : JRecord) (v : JVal),
      qid ≠ ("") → getField r ("id") = some v → v.truthy = true →
      (∃ flds, updateCustomerHandler ("PUT") (some qid) (some r)
          = .facadeCall { endpoint := ("api/record/account/") ++ qid, method := .PUT
                          data := some (.obj flds) }
        ∧ List.lookup ("id") flds = none)
      ∧ (∃ flds, updateProductHandler ("PUT") (some qid) (some r)
          = .facadeCall { endpoint := ("api/record/product/") ++ qid, method := .PUT
                          data := some (.obj flds) }
        ∧ List.lookup ("id") flds = none) := by
  intro qid r v hq hv ht
  have hqb : (qid != ("")) = true := by simp [hq]
  have htr : jsTruthyField (getField r ("id")) = true := by
    simp [jsTruthyField, hv, ht]
  constructor
  · refine ⟨cleanFields (removeField r ("id")), ?_,
      lookup_cleanFields_removeField ("id") r⟩
    simp [updateCustomerHandler, updateHandlerShape, hqb, htr,
      CustomerService.updateCustomer]
  · refine ⟨cleanFields (removeField r ("id")), ?_,
      lookup_cleanFields_removeField ("id") r⟩
    simp [updateProductHandler, updateHandlerShape, hqb, htr,
      ProductService.updateProduct]

/-- Witness for C6 at the update payload of the spec example, with the identifier
supplied in the query position. -/
theorem C6_update_body_id_stripped_witness :
    ∃ flds, updateCustomerHandler ("PUT") (some ("abc123"))
        (some [(("id"), some (.jstr ("X"))), (("name"), some (.jstr ("foo")))])
      = .facadeCall { endpoint := ("api/record/account/") ++ ("abc123"), method := .PUT
                      data := some (.obj flds) }
      ∧ List.lookup ("id") flds = none :=
  (C6_update_body_id_stripped ("abc123")
    [(("id"), some (.jstr ("X"))), (("name"), some (.jstr ("foo")))]
    (.jstr ("X")) (by decide) (by decide) (by decide)).1

/-- C7: the birthday filter keeps a customer exactly when the birth date parses and the
this-year occurrence of its month/day, rolled one year forward when it already fell
before the current instant, lies a rounded-up integer number of days within the
inclusive window; at the spec instants (midnight of 2024-06-01 and of 2024-12-20) the
named examples are kept or dropped as stated, the same-day birthday is kept with zero
days remaining, and a customer without a parseable birth date is dropped; the roll
follows the setFullYear normalization, so at midnight of 2027-12-01 a 1992-02-29
birthday lands on 2028-03-01, 91 days away, and is dropped by a 90-day window. -/
theorem C7_birthday_filter_algorithm :
    (∀ (today : Instant) (w : Int) (b : Option String),
        birthdayKeeps today w b = true ↔ specUpcomingBirthday today w b)
    ∧ birthdayKeeps juneFirst 30 (some ("1990-06-15")) = true
    ∧ birthdayKeeps juneFirst 30 (some ("1990-05-01")) = false
    ∧ birthdayKeeps juneFirst 30 (some ("1990-12-25")) = false
    ∧ birthdayKeeps juneFirst 30 (some ("1990-06-01")) = true
    ∧ daysUntilOccurrence juneFirst 6 1 = 0
    ∧ birthdayKeeps decTwentieth 15 (some ("1985-01-02")) = true
    ∧ birthdayKeeps decFirst 90 (some ("1992-02-29")) = false
    ∧ daysUntilOccurrence decFirst 2 29 = 91
    ∧ rolledOccurrenceMs decFirst 2 29 = rataDie 2028 3 1 * msPerDay
    ∧ birthdayKeeps juneFirst 30 none = false := by
  refine ⟨?_, by decide, by decide, by decide, by decide, by decide, by decide,
    by decide, by decide, by decide, rfl⟩
  intro today w b
  constructor
  · intro h
    cases b with
    | none => simp [birthdayKeeps] at h
    | some s =>
      by_cases hs : s = ("")
      · rw [hs] at h
        simp [birthdayKeeps] at h
      · cases hp : parseIsoDate s with
        | none => simp [birthdayKeeps, hs, hp] at h
        | some t =>
          obtain ⟨y, m, d⟩ := t
          simp [birthdayKeeps, hs, hp] at h
          refine ⟨s, y, m, d, rfl, hp, ?_, ?_⟩
          · simpa [daysUntilOccurrence, rolledOccurrenceMs, thisYearOccurrenceMs]
              using h.1
          · simpa [daysUntilOccurrence, rolledOccurrenceMs, thisYearOccurrenceMs]
              using h.2
  · rintro ⟨s, y, m, d, rfl, hp, h0, h1⟩
    by_cases hs : s = ("")
    · subst hs
      rw [show parseIsoDate ("") = none from rfl] at hp
      cases hp
    · simp [birthdayKeeps, hs, hp]
      constructor
      · simpa [daysUntilOccurrence, rolledOccurrenceMs, thisYearOccurrenceMs] using h0
      · simpa [daysUntilOccurrence, rolledOccurrenceMs, thisYearOccurrenceMs] using h1

/-- Witness for C7: the iff instantiated on the first spec example. -/
theorem C7_birthday_filter_algorithm_witness :
    specUpcomingBirthday juneFirst 30 (some ("1990-06-15")) :=
  (C7_birthday_filter_algorithm.1 juneFirst 30 (some ("1990-06-15"))).mp (by decide)

/-- C10: on a successful fetch the birthday routine returns exactly the in-order
filtering of the fetched collection, and that list is a sublist of the input: every
returned record appears in the input unmodified, relative order is preserved, and no
record is invented or duplicated. -/
theorem C10_filter_returns_sublist :
    ∀ (today : Instant) (days : Int) (customers : List Customer),
      (getUpcomingBirthdays today days
          { success := true, data := some customers, error := none }
        = { success := true
            data := some (customers.filter
              (fun c => birthdayKeeps today days c.birthdaydate))
            error := none })
      ∧ List.Sublist
          (customers.filter (fun c => birthdayKeeps today days c.birthdaydate))
          customers := by
  intro t d cs
  exact ⟨rfl, List.filter_sublist cs⟩

/-- Reassociation of a terminal append so that two adjacent literal chunks merge. -/
theorem strAppendMerge (x a b c : String) (h : a ++ b = c) : (x ++ a) ++ b = x ++ c := by
  rw [String.append_assoc, h]

/-- The template literal of line 141 of customer-service.ts denotes exactly the OR,
over the five designated fields, of the starts-with predicate. -/
theorem customerQueryFilter_eq_fiveFieldOrFilter (q : String) :
    customerQueryFilter q = fiveFieldOrFilter q := by
  have m1 : ∀ x : String, (x ++ (")")) ++ (" OR ") = x ++ (") OR ") :=
    fun x => strAppendMerge x _ _ _ (by decide)
  have mf : ∀ x : String,
      (x ++ (") OR ")) ++ ("(firstname start-with ")
        = x ++ (") OR (firstname start-with ") :=
    fun x => strAppendMerge x _ _ _ (by decide)
  have ml : ∀ x : String,
      (x ++ (") OR ")) ++ ("(lastname start-with ")
        = x ++ (") OR (lastname start-with ") :=
    fun x => strAppendMerge x _ _ _ (by decide)
  have me : ∀ x : String,
      (x ++ (") OR ")) ++ ("(emailaddress1 start-with ")
        = x ++ (") OR (emailaddress1 start-with ") :=
    fun x => strAppendMerge x _ _ _ (by decide)
  have mt : ∀ x : String,
      (x ++ (") OR ")) ++ ("(telephone1 start-with ")
        = x ++ (") OR (telephone1 start-with ") :=
    fun x => strAppendMerge x _ _ _ (by decide)
  have mp : ∀ x : String, (x ++ (")")) ++ (")") = x ++ ("))") :=
    fun x => strAppendMerge x _ _ _ (by decide)
  simp [fiveFieldOrFilter, customerQueryFilter, startWithPredicate,
    String.intercalate, String.intercalate.go, ← String.append_assoc,
    m1, mf, ml, me, mt, mp]

/-- C8 counterexample: a whitespace-only query string is nonempty, yet the payload
carries no query field at all, because line 138 of customer-service.ts also requires
the trimmed query to be nonempty; this refutes the claim as stated for every
non-empty query. -/
theorem C8_counterexample_blank_query :
    callBodyField (CustomerService.queryCustomers
        { query := some (" "), pageSize := none, pageNumber := none
          sortBy := none, sortDirection := none }) ("query") = none
    ∧ (" ") ≠ ("") := ⟨by decide, by decide⟩

/-- C8 amended: the page_size sent to the backend always equals min(pageSize, 50), and
whenever the supplied query is nonblank (nonempty after trimming) the payload query
field is exactly the OR of the starts-with percent-pattern predicate over the five
fields accountname, firstname, lastname, emailaddress1 and telephone1. -/
theorem C8_query_payload_construction :
    (∀ (params : QueryCustomersParams),
        callBodyField (CustomerService.queryCustomers params) ("page_size")
          = some (.jnum (min (params.pageSize.getD 50) 50)))
    ∧ (∀ (params : QueryCustomersParams) (q : String),
        params.query = some q → jsTrim q ≠ ("") →
        callBodyField (CustomerService.queryCustomers params) ("query")
          = some (.jstr (fiveFieldOrFilter q))) := by
  constructor
  · intro params
    cases hq : params.query with
    | none =>
      simp [CustomerService.queryCustomers, callBodyField, getField, hq, List.lookup]
    | some q =>
      by_cases hc : (q != ("") && jsTrim q != ("")) = true
      · simp [CustomerService.queryCustomers, callBodyField, getField, hq, hc,
          List.lookup]
      · simp [CustomerService.queryCustomers, callBodyField, getField, hq, hc,
          List.lookup]
  · intro params q hq htrim
    have hne : q ≠ ("") := by
      intro h
      apply htrim
      rw [h]
      rfl
    have hc : (q != ("") && jsTrim q != ("")) = true := by
      simp [hne, htrim]
    simp [CustomerService.queryCustomers, callBodyField, getField, hq, hc,
      List.lookup, customerQueryFilter_eq_fiveFieldOrFilter]

/-- Witness for C8 amended at the spec example query john with an oversized page. -/
theorem C8_query_payload_construction_witness :
    callBodyField (CustomerService.queryCustomers
        { query := some ("john"), pageSize := some 60, pageNumber := none
          sortBy := none, sortDirection := none }) ("page_size")
      = some (.jnum (min ((some (60 : Int)).getD 50) 50))
    ∧ callBodyField (CustomerService.queryCustomers
        { query := some ("john"), pageSize := some 60, pageNumber := none
          sortBy := none, sortDirection := none }) ("query")
      = some (.jstr (fiveFieldOrFilter ("john"))) :=
  ⟨(C8_query_payload_construction.1
      { query := some ("john"), pageSize := some 60, pageNumber := none
        sortBy := none, sortDirection := none }),
   (C8_query_payload_construction.2
      { query := some ("john"), pageSize := some 60, pageNumber := none
        sortBy := none, sortDirection := none }) ("john") rfl (by decide)⟩

/-- C9: a create request missing a required field is answered with a client error and
no outbound backend call: the product handler returns the 400 outcome on a missing
name, the order handler returns the 400 outcome on a missing accountid or
companyname, and the order facade manufactures its local MISSING_REQUIRED_FIELDS
envelope likewise; each of these outcomes carries no Gateway invocation by
construction, so the Gateway is never reached. -/
theorem C9_missing_required_field_no_backend_call :
    (∀ (body : JRecord), getField body ("name") = none →
        createProductHandler ("POST") (some body)
          = .clientError 400 ("Product data is required with at least a name"))
    ∧ (createProductHandler ("POST") none
        = .clientError 400 ("Product data is required with at least a name"))
    ∧ (∀ (body : JRecord),
        getField body ("accountid") = none ∨ getField body ("companyname") = none →
        createOrderHandler ("POST") (some body)
          = .clientError 400
              ("Order data is required with at least accountid and companyname"))
    ∧ (∀ (order : JRecord),
        getField order ("accountid") = none ∨ getField order ("companyname") = none →
        OrderService.createOrder order
          = .localError ("MISSING_REQUIRED_FIELDS")
              ("Missing required fields: accountid and companyname are required")) := by
  refine ⟨?_, rfl, ?_, ?_⟩
  · intro body h
    simp [createProductHandler, h, jsTruthyField]
  · intro body h
    cases h with
    | inl h => simp [createOrderHandler, h, jsTruthyField]
    | inr h => simp [createOrderHandler, h, jsTruthyField]
  · intro order h
    cases h with
    | inl h => simp [OrderService.createOrder, h, jsTruthyField]
    | inr h => simp [OrderService.createOrder, h, jsTruthyField]

/-- Witness for C9 at a concrete create payload carrying none of the required fields. -/
theorem C9_missing_required_field_no_backend_call_witness :
    (createProductHandler ("POST") (some [(("description"), some (.jstr ("x")))])
      = .clientError 400 ("Product data is required with at least a name"))
    ∧ (OrderService.createOrder [(("description"), some (.jstr ("x")))]
      = .localError ("MISSING_REQUIRED_FIELDS")
          ("Missing required fields: accountid and companyname are required")) :=
  ⟨C9_missing_required_field_no_backend_call.1
      [(("description"), some (.jstr ("x")))] (by decide),
   (C9_missing_required_field_no_backend_call.2.2.2
      [(("description"), some (.jstr ("x")))] (Or.inl (by decide)))⟩

/-- Witness for C5 amended at the record of the spec example: the customer facade
strips the undefined price field, the inventory facade does not, and a concrete
surviving field of the cleaned record is defined. -/
theorem C5_undefined_field_stripping_witness :
    ((CustomerService.updateCustomer ("c1")
        [(("name"), some (.jstr ("A"))), (("price"), none)]).data
      = some (.obj (cleanFields [(("name"), some (.jstr ("A"))), (("price"), none)])))
    ∧ ((InventoryService.updateInventory ("inv1")
        [(("name"), some (.jstr ("A"))), (("price"), none)]).data
      = some (.obj [(("name"), some (.jstr ("A"))), (("price"), none)]))
    ∧ ((("name"), some (JVal.jstr ("A"))) : String × Option JVal).2 ≠ none :=
  ⟨(C5_undefined_field_stripping ("c1")
      [(("name"), some (.jstr ("A"))), (("price"), none)]).2.1,
   (C5_undefined_field_stripping ("inv1")
      [(("name"), some (.jstr ("A"))), (("price"), none)]).2.2.2.2.2.2.2.1,
   (C5_undefined_field_stripping ("inv1")
      [(("name"), some (.jstr ("A"))), (("price"), none)]).2.2.2.2.2.2.2.2.2.2.2.2
     ((("name"), some (JVal.jstr ("A")))) (by decide)⟩
